import Mathlib

/-!
Verification model of the `fullstack-creator` scaffolding generator
(`src/fullstack_creator/main.py`).

The program is a linear, interactive pipeline: prompt for choices, create a
project directory, and drive external toolchains plus literal file writes.
We embed it shallowly:

* every observable effect (subprocess invocation via `runCmd`, file write,
  directory creation/removal, chmod, file append, folder open) becomes an
  `Event` in an ordered trace;
* the outside world (success of shell commands, `shutil.which` lookups,
  `os.path.exists` probes, contents of files read back) is an oracle
  record `Sys`;
* user answers to the `inquirer`/`input` prompts are fields of `Env`;
* each Python function returns its trace of events together with its
  Python return value, and `mainRun` composes them exactly in source order.

Paths are joined POSIX-style (`os.path.join` with `/`); the Windows-only
differences that matter (pip paths, `start.bat`) are driven by the
`isWindows` flag, mirroring `platform.system() == "Windows"` checks.
Console printing is not modelled except for the aggregated
dependency-failure message, which `check_dependencies` returns as data.
-/

set_option maxRecDepth 16384

/-- Observable effects of the generator, in execution order. -/
inductive Event where
  | run (cmd : String) (cwd : String)
  | write (path : String) (content : String)
  | mkdir (path : String)
  | rmtree (path : String)
  | chmod (path : String)
  | append (path : String) (content : String)
  | openFolder (path : String)
deriving DecidableEq, Repr

/-- Oracle for the outside world: command success (`runCmd` outcome, keyed
by command string and working directory), executable lookup (`shutil.which`),
file existence (`os.path.exists`), file contents read back by
`setup_tailwind_config`, and the platform flag. -/
structure Sys where
  cmdOk : String → String → Bool
  which : String → Bool
  fileExists : String → Bool
  fileContent : String → String
  isWindows : Bool

/-- Models `os.path.join` on POSIX. -/
def pjoin (a b : String) : String := a ++ "/" ++ b

/-- Trace model of `runCmd`: one subprocess invocation; the oracle decides
whether it reports success. (`show_output` changes only console behaviour
and the timeout, see `runCmdTimed`; the Boolean result in either branch is
`returncode == 0`, with timeout and exceptions mapped to `False` by the
oracle.) -/
def runCmd (sys : Sys) (cmd : String) (cwd : String) : List Event × Bool :=
  ([Event.run cmd cwd], sys.cmdOk cmd cwd)

/-- Trace model of `write_file`: emits the write. The `except` branch
(filesystem errors) is out of scope; a reachable write is modelled as
succeeding. -/
def write_file (path : String) (content : String) : List Event × Bool :=
  ([Event.write path content], true)

/-- Timing model of `runCmd` for the timeout contract. A command behaviour
is its wall-clock duration and exit code. With `show_output=True` the source
uses `subprocess.Popen` + `process.wait()` with no timeout argument: the call
blocks for the full duration and returns `returncode == 0`. With
`show_output=False` it uses `subprocess.run(..., timeout=300)`: if the
duration exceeds 300 seconds, `TimeoutExpired` is raised at the 300-second
mark and caught, and the function returns `False`. The result is the pair
(returned Boolean, seconds the call blocked). -/
inductive CmdBehavior where
  | finishes (duration : Nat) (exitCode : Nat)
deriving DecidableEq, Repr

def runCmdTimed (show_output : Bool) (b : CmdBehavior) : Bool × Nat :=
  match b with
  | CmdBehavior.finishes d code =>
    if show_output then (code == 0, d)
    else if 300 < d then (false, 300)
    else (code == 0, d)

/-- The `required` dict of `check_dependencies`: tool name and probe
command, in insertion order. -/
def requiredTools : List (String × String) :=
  [("git", "git --version"), ("node", "node --version"), ("npm", "npm --version")]

/-- The tools whose probe command failed, in `required` order (the thread
pool's `executor.map` preserves input order when results are merged). -/
def missingTools (toolOk : String → Bool) : List String :=
  (requiredTools.filter (fun p => !toolOk p.2)).map (fun p => p.1)

/-- Model of `check_dependencies`: `some msg` means the aggregated error
message is printed and the process exits with status 1; `none` means all
probes succeeded and control continues. -/
def check_dependencies (toolOk : String → Bool) : Option String :=
  let missing := missingTools toolOk
  if missing.isEmpty then none
  else some ("[ERROR] Missing required dependencies: " ++ String.intercalate ", " missing)

/-- Model of `get_structure_choices`. -/
def get_structure_choices (language : String) : List String :=
  if language = "Rust" ∨ language = "Go" ∨ language = "C#" then ["Backend only"]
  else ["Fullstack", "Frontend only", "Backend only"]

/-- Model of `get_frontend_choices`. -/
def get_frontend_choices (language : String) : List String :=
  if language ≠ "JavaScript" then ["None"]
  else ["Vite + React", "Vue", "Angular", "Svelte", "None"]

/-- Model of `get_backend_choices` (dict lookup with default `["None"]`). -/
def get_backend_choices (language : String) : List String :=
  if language = "JavaScript" then ["Express", "None"]
  else if language = "Python" then ["Flask", "Django", "FastAPI", "None"]
  else if language = "Rust" then ["Rocket", "Actix", "None"]
  else if language = "Go" then ["Basic HTTP Server", "None"]
  else if language = "C#" then ["ASP.NET Core WebAPI", "None"]
  else ["None"]

/-- The language menu offered by `main` (`inquirer.list_input` choices). -/
def languageChoices : List String := ["JavaScript", "Python", "Rust", "Go", "C#"]

/-- Model of `check_language_dependencies`: `true` means the toolchain check
passes (or no backend was chosen / the language has no registered tools). -/
def check_language_dependencies (which : String → Bool) (language backend : String) : Bool :=
  if backend = "None" then true
  else
    let tools : Option (List String) :=
      if language = "Python" then some ["python3", "python"]
      else if language = "Rust" then some ["cargo"]
      else if language = "Go" then some ["go"]
      else if language = "C#" then some ["dotnet"]
      else none
    match tools with
    | some ts => ts.any which
    | none => true

/-- Model of `setup_python_venv`: create the venv (abort with `False` if
that command fails), then upgrade pip and install the packages with results
ignored, write `requirements.txt`, and return `True`. -/
def setup_python_venv (sys : Sys) (backend_path : String) (packages : List String) :
    List Event × Bool :=
  let python_cmd := if sys.which "python3" then "python3" else "python"
  let r1 := runCmd sys (python_cmd ++ " -m venv venv") backend_path
  if r1.2 then
    let pip_cmd :=
      if sys.isWindows then "venv\\Scripts\\python -m pip install --upgrade pip"
      else "venv/bin/python -m pip install --upgrade pip"
    let install_cmd :=
      (if sys.isWindows then "venv\\Scripts\\python -m pip install "
       else "venv/bin/python -m pip install ") ++ String.intercalate " " packages
    let r2 := runCmd sys pip_cmd backend_path
    let r3 := runCmd sys install_cmd backend_path
    let r4 := write_file (pjoin backend_path "requirements.txt") (String.intercalate "\n" packages)
    (r1.1 ++ r2.1 ++ r3.1 ++ r4.1, true)
  else (r1.1, false)

/-- Model of `setup_npm_project`: `npm init -y`, then install the packages
when the list is non-empty. -/
def setup_npm_project (sys : Sys) (path : String) (packages : List String) :
    List Event × Bool :=
  let r1 := runCmd sys "npm init -y" path
  if r1.2 then
    if packages.isEmpty then (r1.1, true)
    else
      let install_cmd := "npm install " ++ String.intercalate " " packages ++ " --no-audit --no-fund"
      let r2 := runCmd sys install_cmd path
      (r1.1 ++ r2.1, r2.2)
  else (r1.1, false)
def fallbackTailwindConfig : String :=
  "/** @type \x7bimport(\x27tailwindcss\x27).Config\x7d */\nexport default \x7b\n  content: [\"./index.html\", \"./src/**/*.\x7bjs,ts,jsx,tsx\x7d\"],\n  theme: \x7b extend: \x7b\x7d \x7d,\n  plugins: [],\n\x7d"

def fallbackPostcssConfig : String :=
  "export default \x7b\n  plugins: \x7b\n    tailwindcss: \x7b\x7d,\n    autoprefixer: \x7b\x7d,\n  \x7d,\n\x7d"

def twConfigReact : String :=
  "/** @type \x7bimport(\x27tailwindcss\x27).Config\x7d */\nexport default \x7b\n  content: [\n    \"./index.html\",\n    \"./src/**/*.\x7bjs,ts,jsx,tsx\x7d\",\n  ],\n  theme: \x7b\n    extend: \x7b\x7d,\n  \x7d,\n  plugins: [],\n\x7d"

def twConfigVue : String :=
  "/** @type \x7bimport(\x27tailwindcss\x27).Config\x7d */\nexport default \x7b\n  content: [\n    \"./index.html\",\n    \"./src/**/*.\x7bvue,js,ts,jsx,tsx\x7d\",\n  ],\n  theme: \x7b\n    extend: \x7b\x7d,\n  \x7d,\n  plugins: [],\n\x7d"

def twConfigSvelte : String :=
  "/** @type \x7bimport(\x27tailwindcss\x27).Config\x7d */\nexport default \x7b\n  content: [\n    \"./index.html\",\n    \"./src/**/*.\x7bsvelte,js,ts\x7d\",\n  ],\n  theme: \x7b\n    extend: \x7b\x7d,\n  \x7d,\n  plugins: [],\n\x7d"

def twDirectives : String :=
  "@tailwind base;\n@tailwind components;\n@tailwind utilities;"

def appJsxContent : String :=
  "import \x7b useState \x7d from \x27react\x27\nimport reactLogo from \x27./assets/react.svg\x27\nimport viteLogo from \x27/vite.svg\x27\nimport \x27./index.css\x27\n\nfunction App() \x7b\n  const [count, setCount] = useState(0)\n\n  return (\n    <div className=\"min-h-screen bg-gray-100 flex flex-col items-center justify-center\">\n      <div className=\"bg-white p-8 rounded-lg shadow-lg text-center max-w-md\">\n        <div className=\"flex justify-center space-x-4 mb-6\">\n          <a href=\"https://vitejs.dev\" target=\"_blank\" rel=\"noopener noreferrer\">\n            <img src=\x7bviteLogo\x7d className=\"w-16 h-16 hover:drop-shadow-lg transition-all duration-300\" alt=\"Vite logo\" />\n          </a>\n          <a href=\"https://react.dev\" target=\"_blank\" rel=\"noopener noreferrer\">\n            <img src=\x7breactLogo\x7d className=\"w-16 h-16 hover:drop-shadow-lg transition-all duration-300 animate-spin-slow\" alt=\"React logo\" />\n          </a>\n        </div>\n        <h1 className=\"text-3xl font-bold text-gray-800 mb-6\">Vite + React + Tailwind</h1>\n        <div className=\"mb-6\">\n          <button \n            className=\"bg-blue-500 hover:bg-blue-600 text-white font-semibold py-3 px-6 rounded-lg transition-colors duration-200 transform hover:scale-105\"\n            onClick=\x7b() => setCount((count) => count + 1)\x7d\n          >\n            Count is \x7bcount\x7d\n          </button>\n        </div>\n        <p className=\"text-gray-600 mb-4\">\n          Edit <code className=\"bg-gray-100 px-2 py-1 rounded text-sm font-mono\">src/App.jsx</code> and save to test HMR\n        </p>\n        <p className=\"text-sm text-gray-500\">\n          Tailwind CSS is configured and ready to use! 🎨\n        </p>\n      </div>\n    </div>\n  )\n\x7d\n\nexport default App"

def appVueContent : String :=
  "<script setup>\nimport \x7b ref \x7d from \x27vue\x27\nimport HelloWorld from \x27./components/HelloWorld.vue\x27\n\nconst count = ref(0)\n</script>\n\n<template>\n  <div class=\"min-h-screen bg-gray-100 flex flex-col items-center justify-center\">\n    <div class=\"bg-white p-8 rounded-lg shadow-lg text-center max-w-md\">\n      <div class=\"flex justify-center space-x-4 mb-6\">\n        <a href=\"https://vitejs.dev\" target=\"_blank\" rel=\"noopener noreferrer\">\n          <img src=\"/vite.svg\" class=\"w-16 h-16 hover:drop-shadow-lg transition-all duration-300\" alt=\"Vite logo\" />\n        </a>\n        <a href=\"https://vuejs.org/\" target=\"_blank\" rel=\"noopener noreferrer\">\n          <img src=\"./assets/vue.svg\" class=\"w-16 h-16 hover:drop-shadow-lg transition-all duration-300\" alt=\"Vue logo\" />\n        </a>\n      </div>\n      <h1 class=\"text-3xl font-bold text-gray-800 mb-6\">Vite + Vue + Tailwind</h1>\n      <div class=\"mb-6\">\n        <button \n          class=\"bg-green-500 hover:bg-green-600 text-white font-semibold py-3 px-6 rounded-lg transition-colors duration-200 transform hover:scale-105\"\n          @click=\"count++\"\n        >\n          Count is \x7b\x7b count \x7d\x7d\n        </button>\n      </div>\n      <p class=\"text-gray-600 mb-4\">\n        Edit <code class=\"bg-gray-100 px-2 py-1 rounded text-sm font-mono\">src/App.vue</code> and save to test HMR\n      </p>\n      <p class=\"text-sm text-gray-500\">\n        Tailwind CSS is configured and ready to use! 🎨\n      </p>\n    </div>\n  </div>\n</template>\n\n<style scoped>\n/* Component-specific styles can go here */\n</style>"

def appSvelteContent : String :=
  "<script>\n  import svelteLogo from \x27./assets/svelte.svg\x27\n  import Counter from \x27./lib/Counter.svelte\x27\n  let count = 0\n</script>\n\n<main class=\"min-h-screen bg-gray-100 flex flex-col items-center justify-center\">\n  <div class=\"bg-white p-8 rounded-lg shadow-lg text-center max-w-md\">\n    <div class=\"flex justify-center space-x-4 mb-6\">\n      <a href=\"https://vitejs.dev\" target=\"_blank\" rel=\"noopener noreferrer\">\n        <img src=\"/vite.svg\" class=\"w-16 h-16 hover:drop-shadow-lg transition-all duration-300\" alt=\"Vite logo\" />\n      </a>\n      <a href=\"https://svelte.dev\" target=\"_blank\" rel=\"noopener noreferrer\">\n        <img src=\x7bsvelteLogo\x7d class=\"w-16 h-16 hover:drop-shadow-lg transition-all duration-300\" alt=\"Svelte Logo\" />\n      </a>\n    </div>\n\n    <h1 class=\"text-3xl font-bold text-gray-800 mb-6\">Vite + Svelte + Tailwind</h1>\n\n    <div class=\"mb-6\">\n      <button \n        class=\"bg-orange-500 hover:bg-orange-600 text-white font-semibold py-3 px-6 rounded-lg transition-colors duration-200 transform hover:scale-105\"\n        on:click=\x7b() => count += 1\x7d\n      >\n        Count is \x7bcount\x7d\n      </button>\n    </div>\n\n    <p class=\"text-gray-600 mb-4\">\n      Edit <code class=\"bg-gray-100 px-2 py-1 rounded text-sm font-mono\">src/App.svelte</code> and save to test HMR\n    </p>\n    \n    <p class=\"text-sm text-gray-500\">\n      Tailwind CSS is configured and ready to use! 🎨\n    </p>\n  </div>\n</main>"

def serverJsContent : String :=
  "const express = require(\x27express\x27);\nconst cors = require(\x27cors\x27);\nrequire(\x27dotenv\x27).config();\n\nconst app = express();\nconst PORT = process.env.PORT || 5000;\n\napp.use(cors());\napp.use(express.json());\n\napp.get(\x27/\x27, (req, res) => \x7b\n    res.json(\x7b message: \x27Express backend running!\x27 \x7d);\n\x7d);\n\napp.listen(PORT, () => \x7b\n    console.log(\x60Server running on port $\x7bPORT\x7d\x60);\n\x7d);\n"

def fastapiMainContent : String :=
  "from fastapi import FastAPI\nfrom fastapi.middleware.cors import CORSMiddleware\n\napp = FastAPI()\n\napp.add_middleware(\n    CORSMiddleware,\n    allow_origins=[\"http://localhost:3000\", \"http://localhost:5173\"],\n    allow_credentials=True,\n    allow_methods=[\"*\"],\n    allow_headers=[\"*\"],\n)\n\n@app.get(\"/\")\ndef root():\n    return \x7b\"message\": \"FastAPI backend running!\"\x7d\n"

def flaskAppContent : String :=
  "from flask import Flask, jsonify\nfrom flask_cors import CORS\n\napp = Flask(__name__)\nCORS(app)\n\n@app.route(\x27/\x27)\ndef home():\n    return jsonify(\x7b\"message\": \"Flask backend running!\"\x7d)\n\nif __name__ == \x27__main__\x27:\n    app.run(debug=True, port=5000)\n"

def rocketMainContent : String :=
  "#[macro_use] extern crate rocket;\n\n#[get(\"/\")]\nfn index() -> &\x27static str \x7b\n    \"Rocket backend running!\"\n\x7d\n\n#[launch]\nfn rocket() -> _ \x7b\n    rocket::build().mount(\"/\", routes![index])\n\x7d\n"

def actixMainContent : String :=
  "use actix_web::\x7bweb, App, HttpResponse, HttpServer, Result\x7d;\n\nasync fn index() -> Result<HttpResponse> \x7b\n    Ok(HttpResponse::Ok().json(\"Actix backend running!\"))\n\x7d\n\n#[actix_web::main]\nasync fn main() -> std::io::Result<()> \x7b\n    HttpServer::new(|| \x7b\n        App::new()\n            .route(\"/\", web::get().to(index))\n    \x7d)\n    .bind(\"127.0.0.1:8080\")?\n    .run()\n    .await\n\x7d\n"

def goMainContent : String :=
  "package main\n\nimport (\n    \"fmt\"\n    \"net/http\"\n)\n\nfunc handler(w http.ResponseWriter, r *http.Request) \x7b\n    w.Header().Set(\"Access-Control-Allow-Origin\", \"*\")\n    fmt.Fprintln(w, \"Go backend running!\")\n\x7d\n\nfunc main() \x7b\n    http.HandleFunc(\"/\", handler)\n    fmt.Println(\"Server running on http://localhost:8080\")\n    http.ListenAndServe(\":8080\", nil)\n\x7d\n"


/-- Model of `setup_tailwind_config`: write the template-specific
`tailwind.config.js` (dict lookup with `react` default), handle the Svelte
CSS relocation, write the Tailwind directives CSS file, then add the example
component. -/
def tailwindConfigFor (template : String) : String :=
  if template = "react" then twConfigReact
  else if template = "vue" then twConfigVue
  else if template = "svelte" then twConfigSvelte
  else twConfigReact

def cssPathFor (template : String) : String :=
  if template = "react" then "src/index.css"
  else if template = "vue" then "src/style.css"
  else if template = "svelte" then "src/lib/index.css"
  else "src/index.css"

/-- Model of `create_tailwind_example`: overwrite the template's main
component with the Tailwind demo when the file exists. -/
def create_tailwind_example (sys : Sys) (frontend_path template : String) : List Event :=
  if template = "react" then
    let p := pjoin (pjoin frontend_path "src") "App.jsx"
    if sys.fileExists p then (write_file p appJsxContent).1 else []
  else if template = "vue" then
    let p := pjoin (pjoin frontend_path "src") "App.vue"
    if sys.fileExists p then (write_file p appVueContent).1 else []
  else if template = "svelte" then
    let p := pjoin (pjoin frontend_path "src") "App.svelte"
    if sys.fileExists p then (write_file p appSvelteContent).1 else []
  else []

def setup_tailwind_config (sys : Sys) (frontend_path template : String) : List Event :=
  let e1 := (write_file (pjoin frontend_path "tailwind.config.js") (tailwindConfigFor template)).1
  let full_css_path := pjoin frontend_path (cssPathFor template)
  let eSvelte :=
    if template = "svelte" then
      let lib_dir := pjoin (pjoin frontend_path "src") "lib"
      let app_svelte_path := pjoin (pjoin frontend_path "src") "App.svelte"
      [Event.mkdir lib_dir] ++
      (if sys.fileExists app_svelte_path then
        (write_file app_svelte_path
          ((sys.fileContent app_svelte_path).replace "./app.css" "./lib/index.css")).1
      else [])
    else []
  let e2 := (write_file full_css_path twDirectives).1
  e1 ++ eSvelte ++ e2 ++ create_tailwind_example sys frontend_path template

/-- Model of `setup_vite_project` (folder name fixed to the `"frontend"`
default used by every caller): scaffold with `npm create vite@latest`, check
for `package.json`, install base dependencies (with one retry without
`--prefer-offline`), then install and configure Tailwind CSS. -/
def setup_vite_project (sys : Sys) (project_path template : String) :
    List Event × Bool :=
  let folder_name := "frontend"
  let vite_cmd := "npm create vite@latest " ++ folder_name ++ " -- --template " ++ template
  let r1 := runCmd sys vite_cmd project_path
  if r1.2 then
    let frontend_path := pjoin project_path folder_name
    if sys.fileExists (pjoin frontend_path "package.json") then
      let r2 := runCmd sys "npm install --no-audit --no-fund --prefer-offline" frontend_path
      let base : List Event × Bool :=
        if r2.2 then (r2.1, true)
        else
          let r3 := runCmd sys "npm install --no-audit --no-fund" frontend_path
          (r2.1 ++ r3.1, r3.2)
      if base.2 then
        let r4 := runCmd sys "npm install -D tailwindcss postcss autoprefixer --no-audit --no-fund" frontend_path
        if r4.2 then
          let r5 := runCmd sys "npx tailwindcss init -p" frontend_path
          let cfgFallback :=
            if r5.2 then []
            else (write_file (pjoin frontend_path "tailwind.config.js") fallbackTailwindConfig).1
              ++ (write_file (pjoin frontend_path "postcss.config.js") fallbackPostcssConfig).1
          (r1.1 ++ base.1 ++ r4.1 ++ r5.1 ++ cfgFallback
            ++ setup_tailwind_config sys frontend_path template, true)
        else (r1.1 ++ base.1 ++ r4.1, true)
      else (r1.1 ++ base.1, false)
    else (r1.1, false)
  else (r1.1, false)

/-- Model of `create_rust_project`: `cargo new backend --bin`, then append
the dependency line to `Cargo.toml` when dependencies are given. -/
def create_rust_project (sys : Sys) (project_path : String)
    (dependencies : Option String) : List Event × Bool :=
  let r1 := runCmd sys "cargo new backend --bin" project_path
  if r1.2 then
    match dependencies with
    | some deps =>
      let cargo_toml := pjoin (pjoin project_path "backend") "Cargo.toml"
      (r1.1 ++ [Event.append cargo_toml ("\n[dependencies]\n" ++ deps)], true)
    | none => (r1.1, true)
  else (r1.1, false)

/-- Model of `setup_frontend`: dispatch on the chosen frontend; anything
unrecognised (including `"None"`) falls through to `return True` with no
actions. -/
def setup_frontend (sys : Sys) (project_path frontend : String) : List Event × Bool :=
  if frontend = "Vite + React" then setup_vite_project sys project_path "react"
  else if frontend = "Vue" then setup_vite_project sys project_path "vue"
  else if frontend = "Angular" then
    let cmd := "npx -p @angular/cli ng new frontend --skip-git --skip-install --routing --style=css --package-manager=npm"
    let r1 := runCmd sys cmd project_path
    if r1.2 then
      let frontend_path := pjoin project_path "frontend"
      let r2 := runCmd sys "npm install --silent --no-audit --no-fund" frontend_path
      (r1.1 ++ r2.1, r2.2)
    else (r1.1, false)
  else if frontend = "Svelte" then setup_vite_project sys project_path "svelte"
  else ([], true)

/-- Model of `setup_backend`: dispatch on the chosen backend; anything
unrecognised (including `"None"`) falls through to `return True` with no
actions. -/
def setup_backend (sys : Sys) (project_path backend : String) : List Event × Bool :=
  let backend_path := pjoin project_path "backend"
  if backend = "Express" then
    let r1 := setup_npm_project sys backend_path ["express", "cors", "dotenv"]
    if r1.2 then
      let r2 := write_file (pjoin backend_path "server.js") serverJsContent
      ([Event.mkdir backend_path] ++ r1.1 ++ r2.1, r2.2)
    else ([Event.mkdir backend_path] ++ r1.1, false)
  else if backend = "FastAPI" then
    let r1 := setup_python_venv sys backend_path ["fastapi", "uvicorn[standard]"]
    if r1.2 then
      let r2 := write_file (pjoin backend_path "main.py") fastapiMainContent
      ([Event.mkdir backend_path] ++ r1.1 ++ r2.1, r2.2)
    else ([Event.mkdir backend_path] ++ r1.1, false)
  else if backend = "Flask" then
    let r1 := setup_python_venv sys backend_path ["flask", "flask-cors"]
    if r1.2 then
      let r2 := write_file (pjoin backend_path "app.py") flaskAppContent
      ([Event.mkdir backend_path] ++ r1.1 ++ r2.1, r2.2)
    else ([Event.mkdir backend_path] ++ r1.1, false)
  else if backend = "Django" then
    let r1 := setup_python_venv sys backend_path ["django", "djangorestframework", "django-cors-headers"]
    if r1.2 then
      let activate_cmd := if sys.isWindows then "venv\\Scripts\\python" else "venv/bin/python"
      let r2 := runCmd sys (activate_cmd ++ " -m django startproject backend_app .") backend_path
      ([Event.mkdir backend_path] ++ r1.1 ++ r2.1, r2.2)
    else ([Event.mkdir backend_path] ++ r1.1, false)
  else if backend = "Rocket" then
    let r1 := create_rust_project sys project_path (some "rocket = \"0.5\"")
    if r1.2 then
      let r2 := write_file (pjoin (pjoin (pjoin project_path "backend") "src") "main.rs") rocketMainContent
      (r1.1 ++ r2.1, r2.2)
    else (r1.1, false)
  else if backend = "Actix" then
    let r1 := create_rust_project sys project_path (some "actix-web = \"4\"")
    if r1.2 then
      let r2 := write_file (pjoin (pjoin (pjoin project_path "backend") "src") "main.rs") actixMainContent
      (r1.1 ++ r2.1, r2.2)
    else (r1.1, false)
  else if backend = "Basic HTTP Server" then
    let r2 := write_file (pjoin backend_path "main.go") goMainContent
    ([Event.mkdir backend_path] ++ r2.1, r2.2)
  else if backend = "ASP.NET Core WebAPI" then
    runCmd sys "dotnet new webapi -n backend" project_path
  else ([], true)

/-- Content of the generated `.gitignore` (`create_gitignore` body). -/
def gitignore_content (frontend language : String) : String :=
  let base : List String := ["# Dependencies", "node_modules/", "*.log", "",
    "# Environment", ".env", ".env.local", "", "# Build outputs", "dist/", "build/", ""]
  let lang : List String :=
    if language = "Python" then ["# Python", "__pycache__/", "*.pyc", "venv/", ".venv/", ""]
    else if language = "Rust" then ["# Rust", "target/", "Cargo.lock", ""]
    else if language = "Go" then ["# Go", "*.exe", "*.exe~", "*.dll", "*.so", "*.dylib", ""]
    else if language = "C#" then ["# .NET", "bin/", "obj/", "*.user", ""]
    else []
  let ng : List String := if frontend = "Angular" then ["# Angular", ".angular/", ""] else []
  String.intercalate "\n" (base ++ lang ++ ng)

/-- Model of `create_gitignore` (the `backend` argument is accepted and
unused, as in the source). -/
def create_gitignore (project_path frontend _backend language : String) : List Event :=
  (write_file (pjoin project_path ".gitignore") (gitignore_content frontend language)).1

/-- The frontends that get the Tailwind note in the README. -/
def tailwindFrontends : List String := ["Vite + React", "Vue", "Svelte"]

/-- Per-backend manual-setup section of the README (`backend_docs` dict,
default `""`). -/
def readmeBackendDoc (backend : String) : String :=
  if backend = "Express" then
    "\n#### Backend (Express)\n\x60\x60\x60bash\ncd backend\nnpm install\nnode server.js\n\x60\x60\x60\n"
  else if backend = "Flask" then
    "\n#### Backend (Flask)\n\x60\x60\x60bash\ncd backend\npython3 -m venv venv\nsource venv/bin/activate\npip install -r requirements.txt\npython app.py\n\x60\x60\x60\n"
  else if backend = "Django" then
    "\n#### Backend (Django)\n\x60\x60\x60bash\ncd backend\npython3 -m venv venv\nsource venv/bin/activate\npip install -r requirements.txt\npython manage.py runserver\n\x60\x60\x60\n"
  else if backend = "FastAPI" then
    "\n#### Backend (FastAPI)\n\x60\x60\x60bash\ncd backend\npython3 -m venv venv\nsource venv/bin/activate\npip install -r requirements.txt\nuvicorn main:app --reload\n\x60\x60\x60\n"
  else if backend = "Rocket" then
    "\n#### Backend (Rocket)\n\x60\x60\x60bash\ncd backend\ncargo run\n\x60\x60\x60\n"
  else if backend = "Actix" then
    "\n#### Backend (Actix)\n\x60\x60\x60bash\ncd backend\ncargo run\n\x60\x60\x60\n"
  else if backend = "Basic HTTP Server" then
    "\n#### Backend (Go)\n\x60\x60\x60bash\ncd backend\ngo run main.go\n\x60\x60\x60\n"
  else if backend = "ASP.NET Core WebAPI" then
    "\n#### Backend (ASP.NET Core)\n\x60\x60\x60bash\ncd backend\ndotnet run\n\x60\x60\x60\n"
  else ""

/-- Per-language prerequisites line of the README (`prereqs` dict). -/
def readmePrereq (language : String) : String :=
  if language = "Python" then "\n- Python 3.x (for backend)"
  else if language = "Rust" then "\n- Rust and Cargo (for backend)"
  else if language = "Go" then "\n- Go (for backend)"
  else if language = "C#" then "\n- .NET SDK (for backend)"
  else ""

/-- Content of the generated `README.md` (`create_readme` body). -/
def readme_content (project_name frontend backend language : String) : String :=
  let c := "# " ++ project_name ++ "\n\n## Project Structure\n\n"
  let c :=
    if frontend ≠ "None" ∧ backend ≠ "None" then
      c ++ "- **Frontend**: " ++ frontend
        ++ (if tailwindFrontends.contains frontend then " (with Tailwind CSS v3)" else "")
        ++ "\n- **Backend**: " ++ backend ++ "\n"
    else if frontend ≠ "None" then
      c ++ "- **Frontend**: " ++ frontend
        ++ (if tailwindFrontends.contains frontend then " (with Tailwind CSS v3)" else "")
        ++ "\n"
    else if backend ≠ "None" then
      c ++ "- **Backend**: " ++ backend ++ "\n"
    else c
  let c := c ++ "\n## Getting Started\n\n### Prerequisites\n- Node.js and npm (for frontend)"
  let c := c ++ readmePrereq language
  let c := c ++ "\n\n### Installation\n\n1. Clone the repository\n2. Run the start script: \x60./start.sh\x60\n\n### Manual Setup\n"
  let c :=
    if frontend ≠ "None" then
      c ++ "\n#### Frontend\n\x60\x60\x60bash\ncd frontend\nnpm install\nnpm run dev\n\x60\x60\x60\n"
        ++ (if tailwindFrontends.contains frontend then
              "\n**Tailwind CSS is pre-configured!** You can start using Tailwind utility classes immediately.\n"
            else "")
    else c
  if backend ≠ "None" then c ++ readmeBackendDoc backend else c

/-- Model of `create_readme`. -/
def create_readme (project_path project_name frontend backend language : String) : List Event :=
  (write_file (pjoin project_path "README.md") (readme_content project_name frontend backend language)).1

/-- Per-backend launch command of the start script (`backend_cmds` dicts). -/
def backendStartCmd (isWindows : Bool) (backend : String) : Option String :=
  if isWindows then
    if backend = "Express" then some "start cmd /k \"cd backend && node server.js\""
    else if backend = "FastAPI" then some "start cmd /k \"cd backend && venv\\Scripts\\activate && uvicorn main:app --reload\""
    else if backend = "Flask" then some "start cmd /k \"cd backend && venv\\Scripts\\activate && python app.py\""
    else if backend = "Django" then some "start cmd /k \"cd backend && venv\\Scripts\\activate && python manage.py runserver\""
    else if backend = "Rocket" then some "start cmd /k \"cd backend && cargo run\""
    else if backend = "Actix" then some "start cmd /k \"cd backend && cargo run\""
    else if backend = "Basic HTTP Server" then some "start cmd /k \"cd backend && go run main.go\""
    else if backend = "ASP.NET Core WebAPI" then some "start cmd /k \"cd backend && dotnet run\""
    else none
  else
    if backend = "Express" then some "(cd backend && node server.js) &"
    else if backend = "FastAPI" then some "(cd backend && source venv/bin/activate && uvicorn main:app --reload) &"
    else if backend = "Flask" then some "(cd backend && source venv/bin/activate && python app.py) &"
    else if backend = "Django" then some "(cd backend && source venv/bin/activate && python manage.py runserver) &"
    else if backend = "Rocket" then some "(cd backend && cargo run) &"
    else if backend = "Actix" then some "(cd backend && cargo run) &"
    else if backend = "Basic HTTP Server" then some "(cd backend && go run main.go) &"
    else if backend = "ASP.NET Core WebAPI" then some "(cd backend && dotnet run) &"
    else none

/-- The `commands` list assembled by `create_start_script` before the
POSIX `wait` extension. -/
def startScriptBase (isWindows : Bool) (frontend backend : String) : List String :=
  (if isWindows then ["@echo off", "echo Starting development servers..."]
   else ["#!/bin/bash\n", "echo \"Starting development servers...\""])
  ++ (if frontend ≠ "None" then
        if isWindows then ["start cmd /k \"cd frontend && npm run dev\""]
        else ["(cd frontend && npm run dev) &"]
      else [])
  ++ (match backendStartCmd isWindows backend with
      | some c => [c]
      | none => [])

/-- Content of the generated start script (`create_start_script` body): the
command list joined by newlines, with the `wait` epilogue appended on POSIX
when any command string contains an ampersand. -/
def start_script_content (isWindows : Bool) (frontend backend : String) : String :=
  let commands := startScriptBase isWindows frontend backend
  let commands :=
    if isWindows = false ∧
        0 < (commands.filter (fun c => decide ("&".data <:+: c.data))).length then
      commands ++ ["\necho \"All services started. Press Ctrl+C to stop all services.\"", "wait"]
    else commands
  String.intercalate "\n" commands

/-- Model of `create_start_script`: write `start.sh`/`start.bat` and, on
POSIX, mark it executable. -/
def create_start_script (sys : Sys) (project_path frontend backend : String) : List Event :=
  let script_name := if sys.isWindows then "start.bat" else "start.sh"
  let script_path := pjoin project_path script_name
  (write_file script_path (start_script_content sys.isWindows frontend backend)).1
    ++ (if sys.isWindows then [] else [Event.chmod script_path])

/-- One interactive session: the oracle world plus the user's answer to
every prompt `main` can show. Prompt answers are recorded even for prompts
a particular run never reaches; `mainRun` consults them exactly where the
source calls `input`/`inquirer.list_input`. -/
structure Env where
  sys : Sys
  toolOk : String → Bool
  projectNameInput : String
  savePathInput : String
  cwd : String
  dirExists : Bool
  overwriteYes : Bool
  language : String
  structureChoice : String
  frontendChoice : String
  backendChoice : String
  visibilityChoice : String
  openYes : Bool

/-- The project name after `.strip()`. -/
def projectNameOf (env : Env) : String := env.projectNameInput

/-- The save path: the stripped input, defaulting to the current working
directory when empty. -/
def savePathOf (env : Env) : String :=
  if env.savePathInput = "" then env.cwd else env.savePathInput

/-- `project_path = os.path.join(save_path, project_name)`. -/
def projectPathOf (env : Env) : String := pjoin (savePathOf env) (projectNameOf env)

/-- The frontend choice as resolved by `main`: prompted only for
`Fullstack`/`Frontend only` structures, otherwise left at `"None"`. -/
def resolvedFrontend (env : Env) : String :=
  if env.structureChoice = "Fullstack" ∨ env.structureChoice = "Frontend only" then
    env.frontendChoice
  else "None"

/-- The backend choice as resolved by `main`: prompted only for
`Fullstack`/`Backend only` structures, otherwise left at `"None"`. -/
def resolvedBackend (env : Env) : String :=
  if env.structureChoice = "Fullstack" ∨ env.structureChoice = "Backend only" then
    env.backendChoice
  else "None"

/-- The tail of `main` after the project directory has been handled: the
choice prompts, the language-toolchain check (exit 1 on failure), then git
init, the frontend and backend phases (failures logged and ignored), static
files, the initial commit, optional GitHub publication, and the optional
folder open. Returns the events of this tail plus the exit code. -/
def mainAfterDir (env : Env) (project_path project_name : String) : List Event × Nat :=
  let frontend := resolvedFrontend env
  let backend := resolvedBackend env
  if check_language_dependencies env.sys.which env.language backend then
    let gh_available := env.sys.which "gh"
    let visibility := if gh_available then env.visibilityChoice else "Skip"
    let rGit := runCmd env.sys "git init" project_path
    let rF := if frontend ≠ "None" then setup_frontend env.sys project_path frontend else ([], true)
    let rB := if backend ≠ "None" then setup_backend env.sys project_path backend else ([], true)
    let tS := create_start_script env.sys project_path frontend backend
    let tI := create_gitignore project_path frontend backend env.language
    let tR := create_readme project_path project_name frontend backend env.language
    let rAdd := runCmd env.sys "git add ." project_path
    let rCommit := runCmd env.sys "git commit -m \"Initial commit: Project scaffolding\"" project_path
    let tGh :=
      if visibility ≠ "Skip" then
        let flag := if visibility = "Public" then "--public" else "--private"
        (runCmd env.sys ("gh repo create " ++ project_name ++ " " ++ flag
          ++ " --source . --remote=origin --push") project_path).1
      else []
    let tOpen := if env.openYes then [Event.openFolder project_path] else []
    (rGit.1 ++ rF.1 ++ rB.1 ++ tS ++ tI ++ tR ++ rAdd.1 ++ rCommit.1 ++ tGh ++ tOpen, 0)
  else ([], 1)

/-- Model of `main`: dependency check (exit 1), project-name prompt (exit 1
when empty after stripping), overwrite confirmation for an existing target
directory (exit 0 when declined, `shutil.rmtree` when accepted),
`os.makedirs`, then `mainAfterDir`. The result is the ordered trace of all
filesystem/process events together with the process exit code. -/
def mainRun (env : Env) : List Event × Nat :=
  match check_dependencies env.toolOk with
  | some _ => ([], 1)
  | none =>
    if projectNameOf env = "" then ([], 1)
    else
      let project_path := projectPathOf env
      if env.dirExists ∧ env.overwriteYes = false then ([], 0)
      else
        let pre := (if env.dirExists then [Event.rmtree project_path] else [])
          ++ [Event.mkdir project_path]
        let rest := mainAfterDir env project_path (projectNameOf env)
        (pre ++ rest.1, rest.2)

/-- The backend choices `setup_backend` has a branch for (every other value
falls through to the trailing `return True`). -/
def handledBackends : List String :=
  ["Express", "FastAPI", "Flask", "Django", "Rocket", "Actix",
   "Basic HTTP Server", "ASP.NET Core WebAPI"]

/-- The frontend choices `setup_frontend` has a branch for. -/
def handledFrontends : List String := ["Vite + React", "Vue", "Angular", "Svelte"]

/-- The venv-creation command of `setup_python_venv` for a given world
(`python3` when resolvable, else `python`). -/
def venvCmd (sys : Sys) : String :=
  (if sys.which "python3" then "python3" else "python") ++ " -m venv venv"

/-- A world where every command succeeds, every executable resolves, and
every file probe succeeds, on POSIX. -/
def sysAll : Sys :=
  { cmdOk := fun _ _ => true, which := fun _ => true,
    fileExists := fun _ => true, fileContent := fun _ => "", isWindows := false }

/-- The JavaScript/Fullstack/Vite+React/Express session: every external
command succeeds, scaffolded files exist, GitHub CLI absent, POSIX. -/
def envC2 : Env :=
  { sys := { cmdOk := fun _ _ => true, which := fun _ => false,
             fileExists := fun _ => true, fileContent := fun _ => "", isWindows := false },
    toolOk := fun _ => true,
    projectNameInput := "myapp", savePathInput := "/home/u", cwd := "/home/u",
    dirExists := false, overwriteYes := true,
    language := "JavaScript", structureChoice := "Fullstack",
    frontendChoice := "Vite + React", backendChoice := "Express",
    visibilityChoice := "Skip", openYes := false }

/-- A Python/Flask session against an existing target directory where the
user confirms the overwrite but no Python interpreter is resolvable. -/
def envC4 : Env :=
  { sys := { cmdOk := fun _ _ => true, which := fun _ => false,
             fileExists := fun _ => true, fileContent := fun _ => "", isWindows := false },
    toolOk := fun _ => true,
    projectNameInput := "app", savePathInput := "/home/u", cwd := "/home/u",
    dirExists := true, overwriteYes := true,
    language := "Python", structureChoice := "Backend only",
    frontendChoice := "None", backendChoice := "Flask",
    visibilityChoice := "Skip", openYes := false }

/-- A session against an existing target directory with all tools present,
used to exercise the overwrite-confirmation flow. -/
def envW6 : Env :=
  { sys := sysAll,
    toolOk := fun _ => true,
    projectNameInput := "site", savePathInput := "/srv", cwd := "/srv",
    dirExists := true, overwriteYes := false,
    language := "Go", structureChoice := "Backend only",
    frontendChoice := "None", backendChoice := "None",
    visibilityChoice := "Skip", openYes := false }

/-- The overwrite-accepting variant of `envW6`. -/
def envW5 : Env := { envW6 with overwriteYes := true }

/-- Claim C3, as stated, is false: Python is offered every structure choice.
`get_structure_choices` restricts only Rust, Go and C# to Backend-only. -/
theorem structure_choices_python_counterexample :
    "Python" ∈ languageChoices ∧ "Python" ≠ "JavaScript" ∧
    get_structure_choices "Python" ≠ ["Backend only"] := by
  refine ⟨by decide, by decide, by decide⟩

/-- Claim C3 (amended): for every language choice other than JavaScript and
Python, the structure set offered by the catalog is exactly Backend-only. -/
theorem structure_choices_nonweb_backend_only (language : String)
    (hmem : language ∈ languageChoices) (hjs : language ≠ "JavaScript")
    (hpy : language ≠ "Python") :
    get_structure_choices language = ["Backend only"] := by
  simp only [languageChoices, List.mem_cons, List.not_mem_nil, or_false] at hmem
  rcases hmem with h | h | h | h | h <;> subst h <;> first
    | decide
    | exact absurd rfl hjs
    | exact absurd rfl hpy

/-- Witness for `structure_choices_nonweb_backend_only` at Rust. -/
theorem structure_choices_nonweb_backend_only_witness :
    "Rust" ∈ languageChoices ∧ "Rust" ≠ "JavaScript" ∧ "Rust" ≠ "Python" ∧
    get_structure_choices "Rust" = ["Backend only"] :=
  ⟨by decide, by decide, by decide,
    structure_choices_nonweb_backend_only "Rust" (by decide) (by decide) (by decide)⟩

/-- Claim C5, as stated, is false: a command run with `show_output=True`
(the `Popen`/`wait` path) has no timeout. A 301-second command blocks past
the 300-second limit and still reports success. -/
theorem command_timeout_counterexample :
    runCmdTimed true (CmdBehavior.finishes 301 0) = (true, 301) ∧ ¬(301 ≤ 300) := by
  refine ⟨rfl, by decide⟩

/-- Claim C5 (amended): only silent-mode commands (`show_output=False`) are
subject to the fixed 300-second timeout, and for those a timeout is reported
as failure (`False`) exactly like a failed command; `show_output=True`
commands block for their full duration with no timeout. Command failure is
non-fatal at the pipeline level: whenever the pre-generation checks pass,
`main` completes with exit 0 no matter which commands fail. -/
theorem command_timeout_silent_only :
    (∀ b, (runCmdTimed false b).2 ≤ 300) ∧
    (∀ d c, 300 < d → runCmdTimed false (CmdBehavior.finishes d c) = (false, 300)) ∧
    (∀ d c, runCmdTimed true (CmdBehavior.finishes d c) = (c == 0, d)) ∧
    (∀ env : Env, check_dependencies env.toolOk = none → projectNameOf env ≠ "" →
      ¬(env.dirExists ∧ env.overwriteYes = false) →
      check_language_dependencies env.sys.which env.language (resolvedBackend env) = true →
      (mainRun env).2 = 0) := by
  refine ⟨?_, ?_, ?_, ?_⟩
  · rintro ⟨d, c⟩
    simp only [runCmdTimed, Bool.false_eq_true, if_false]
    split
    · omega
    · simp
      omega
  · intro d c h
    simp [runCmdTimed, h]
  · intro d c
    simp [runCmdTimed]
  · intro env hdeps hname hover hlang
    simp [mainRun, mainAfterDir, hdeps, hname, hover, hlang]

/-- Witness for `command_timeout_silent_only`. -/
theorem command_timeout_silent_only_witness :
    (runCmdTimed false (CmdBehavior.finishes 301 0)).2 ≤ 300 ∧
    runCmdTimed false (CmdBehavior.finishes 301 0) = (false, 300) ∧
    runCmdTimed true (CmdBehavior.finishes 7 0) = (true, 7) ∧
    (mainRun envW5).2 = 0 :=
  ⟨command_timeout_silent_only.1 (CmdBehavior.finishes 301 0),
   command_timeout_silent_only.2.1 301 0 (by decide),
   command_timeout_silent_only.2.2.1 7 0,
   command_timeout_silent_only.2.2.2 envW5 rfl (by decide) (by decide) rfl⟩

/-- Claim C7, as stated, is false: a backend or frontend value outside the
catalog's set for every language is not rejected — both setup functions fall
through to their trailing `return True`, producing no actions and reporting
success. -/
theorem unknown_choice_rejected_counterexample :
    (∀ l ∈ languageChoices, "Bogus" ∉ get_backend_choices l ∧ "Bogus" ∉ get_frontend_choices l) ∧
    setup_backend sysAll "/p" "Bogus" = ([], true) ∧
    setup_frontend sysAll "/p" "Bogus" = ([], true) := by
  refine ⟨by decide, rfl, rfl⟩

/-- Helper: the accumulator is an infix of `String.intercalate.go acc s as`. -/
theorem intercalate_go_acc_part (s : String) (as : List String) :
    ∀ acc : String, acc.data <:+: (String.intercalate.go acc s as).data := by
  induction as with
  | nil =>
    intro acc
    exact List.infix_rfl
  | cons a as ih =>
    intro acc
    rw [String.intercalate.go]
    refine List.IsInfix.trans ?_ (ih (acc ++ s ++ a))
    exact ⟨[], s.data ++ a.data, by simp⟩

/-- Helper: every later element is an infix of `String.intercalate.go`. -/
theorem intercalate_go_mem_part (s t : String) :
    ∀ (as : List String), t ∈ as →
      ∀ acc : String, t.data <:+: (String.intercalate.go acc s as).data := by
  intro as
  induction as with
  | nil =>
    intro h
    cases h
  | cons a as ih =>
    intro h acc
    rw [String.intercalate.go]
    rcases List.mem_cons.mp h with h | h
    · subst h
      refine List.IsInfix.trans ?_ (intercalate_go_acc_part s as (acc ++ s ++ t))
      exact ⟨acc.data ++ s.data, [], by simp⟩
    · exact ih h (acc ++ s ++ a)

/-- Helper: every member of `l` is an infix of `String.intercalate sep l`. -/
theorem mem_part_intercalate (sep t : String) (l : List String) (h : t ∈ l) :
    t.data <:+: (String.intercalate sep l).data := by
  cases l with
  | nil => cases h
  | cons a as =>
    rw [String.intercalate]
    rcases List.mem_cons.mp h with h | h
    · subst h
      exact intercalate_go_acc_part sep as t
    · exact intercalate_go_mem_part sep t as h a

/-- Claim C8: whenever at least one base tool probe fails, the dependency
check produces a single aggregated message that contains the name of every
missing tool, and the run exits with status 1 before any event. -/
theorem missing_tools_aggregated (toolOk : String → Bool)
    (h : missingTools toolOk ≠ []) :
    ∃ msg, check_dependencies toolOk = some msg ∧
      (∀ t ∈ missingTools toolOk, t.data <:+: msg.data) ∧
      (∀ env : Env, env.toolOk = toolOk → mainRun env = ([], 1)) := by
  have hck : check_dependencies toolOk =
      some ("[ERROR] Missing required dependencies: " ++
        String.intercalate ", " (missingTools toolOk)) := by
    simp [check_dependencies, List.isEmpty_iff, h]
  refine ⟨_, hck, ?_, ?_⟩
  · intro t ht
    obtain ⟨u, v, huv⟩ := mem_part_intercalate ", " t (missingTools toolOk) ht
    refine ⟨("[ERROR] Missing required dependencies: ").data ++ u, v, ?_⟩
    rw [String.data_append, ← huv]
    simp
  · intro env he
    simp [mainRun, he, hck]

/-- Witness for `missing_tools_aggregated` with every tool missing. -/
theorem missing_tools_aggregated_witness :
    missingTools (fun _ => false) ≠ [] ∧
    ∃ msg, check_dependencies (fun _ => false) = some msg ∧
      (∀ t ∈ missingTools (fun _ => false), t.data <:+: msg.data) ∧
      (∀ env : Env, env.toolOk = (fun _ => false) → mainRun env = ([], 1)) :=
  ⟨by decide, missing_tools_aggregated (fun _ => false) (by decide)⟩

/-- Claim C10: `setup_python_venv` fails exactly when the venv-creation
command fails; on that failure nothing is written, and once the venv exists
it always writes `requirements.txt` (the package names joined by newlines)
and returns success, regardless of the pip-upgrade and install outcomes. -/
theorem setup_python_venv_contract (sys : Sys) (bp : String) (ps : List String)
    (hne : ps ≠ []) :
    ((setup_python_venv sys bp ps).2 = sys.cmdOk (venvCmd sys) bp) ∧
    (sys.cmdOk (venvCmd sys) bp = false →
      ∀ path content, Event.write path content ∉ (setup_python_venv sys bp ps).1) ∧
    (sys.cmdOk (venvCmd sys) bp = true →
      Event.write (pjoin bp "requirements.txt") (String.intercalate "\n" ps)
        ∈ (setup_python_venv sys bp ps).1) := by
  have hv := Bool.dichotomy (sys.cmdOk (venvCmd sys) bp)
  rcases hv with hv | hv <;>
    simp_all [setup_python_venv, venvCmd, runCmd, write_file]

/-- Witness for `setup_python_venv_contract` at the Flask package list. -/
theorem setup_python_venv_contract_witness :
    (["flask", "flask-cors"] : List String) ≠ [] ∧
    ((setup_python_venv sysAll "/b" ["flask", "flask-cors"]).2 =
      sysAll.cmdOk (venvCmd sysAll) "/b") ∧
    (sysAll.cmdOk (venvCmd sysAll) "/b" = false →
      ∀ path content, Event.write path content ∉ (setup_python_venv sysAll "/b" ["flask", "flask-cors"]).1) ∧
    (sysAll.cmdOk (venvCmd sysAll) "/b" = true →
      Event.write (pjoin "/b" "requirements.txt") (String.intercalate "\n" ["flask", "flask-cors"])
        ∈ (setup_python_venv sysAll "/b" ["flask", "flask-cors"]).1) :=
  ⟨by decide, setup_python_venv_contract sysAll "/b" ["flask", "flask-cors"] (by decide)⟩

/-- Helper: the exact Flask fragment trace on POSIX with `python3` on the
path and a succeeding venv creation. -/
theorem flask_trace (sys : Sys) (p : String)
    (hwin : sys.isWindows = false) (hpy3 : sys.which "python3" = true)
    (hvenv : sys.cmdOk "python3 -m venv venv" (pjoin p "backend") = true) :
    setup_backend sys p "Flask" =
      ([Event.mkdir (pjoin p "backend"),
        Event.run "python3 -m venv venv" (pjoin p "backend"),
        Event.run "venv/bin/python -m pip install --upgrade pip" (pjoin p "backend"),
        Event.run "venv/bin/python -m pip install flask flask-cors" (pjoin p "backend"),
        Event.write (pjoin (pjoin p "backend") "requirements.txt") "flask\nflask-cors",
        Event.write (pjoin (pjoin p "backend") "app.py") flaskAppContent], true) := by
  have h1 : ("python3" : String) ++ " -m venv venv" = "python3 -m venv venv" := rfl
  have h2 : ("venv/bin/python -m pip install " : String)
      ++ String.intercalate " " ["flask", "flask-cors"]
      = "venv/bin/python -m pip install flask flask-cors" := rfl
  have h3 : String.intercalate "\n" (["flask", "flask-cors"] : List String)
      = "flask\nflask-cors" := rfl
  simp [setup_backend, setup_python_venv, runCmd, write_file, hwin, hpy3, h1, h2, h3, hvenv]

/-- Claim C1: the Flask fragment creates the virtual environment (index 1)
before the package installation (index 3), installs exactly `flask` and
`flask-cors`, writes a `requirements.txt` containing both names, and writes
`app.py` whose content defines a root route returning a JSON greeting that
mentions Flask. Stated on POSIX with `python3` resolvable and a succeeding
venv creation; the pip-upgrade and install outcomes are unconstrained. -/
theorem flask_backend_setup (sys : Sys) (p : String)
    (hwin : sys.isWindows = false) (hpy3 : sys.which "python3" = true)
    (hvenv : sys.cmdOk "python3 -m venv venv" (pjoin p "backend") = true) :
    (setup_backend sys p "Flask").2 = true ∧
    ((setup_backend sys p "Flask").1)[1]? =
      some (Event.run "python3 -m venv venv" (pjoin p "backend")) ∧
    ((setup_backend sys p "Flask").1)[3]? =
      some (Event.run "venv/bin/python -m pip install flask flask-cors" (pjoin p "backend")) ∧
    (1 : Nat) < 3 ∧
    ((setup_backend sys p "Flask").1)[4]? =
      some (Event.write (pjoin (pjoin p "backend") "requirements.txt") "flask\nflask-cors") ∧
    ("flask".data <:+: "flask\nflask-cors".data) ∧
    ("flask-cors".data <:+: "flask\nflask-cors".data) ∧
    ((setup_backend sys p "Flask").1)[5]? =
      some (Event.write (pjoin (pjoin p "backend") "app.py") flaskAppContent) ∧
    ("@app.route(\x27/\x27)".data <:+: flaskAppContent.data) ∧
    ("jsonify".data <:+: flaskAppContent.data) ∧
    ("Flask".data <:+: flaskAppContent.data) := by
  rw [flask_trace sys p hwin hpy3 hvenv]
  refine ⟨rfl, rfl, rfl, by decide, rfl, by decide, by decide, rfl, by decide, by decide, by decide⟩

/-- Witness for `flask_backend_setup` in the all-succeeding world. -/
theorem flask_backend_setup_witness :
    sysAll.isWindows = false ∧ sysAll.which "python3" = true ∧
    sysAll.cmdOk "python3 -m venv venv" (pjoin "/proj" "backend") = true ∧
    ((setup_backend sysAll "/proj" "Flask").1)[4]? =
      some (Event.write (pjoin (pjoin "/proj" "backend") "requirements.txt") "flask\nflask-cors") :=
  ⟨rfl, rfl, rfl, (flask_backend_setup sysAll "/proj" rfl rfl rfl).2.2.2.2.1⟩

/-- Claim C7 (amended): a frontend or backend choice outside the Choice
Catalog's set for the chosen language is never rejected, because
`setup_frontend` and `setup_backend` dispatch on the choice string alone and
never consult the language. A choice with no handled fragment at all
silently succeeds as a no-op with no generation action, while a choice drawn
from another language's catalog — here Flask, which is outside the
JavaScript catalog — executes its fragment's generation actions in full and
reports success. (In the interactive flow out-of-catalog values cannot
arise, since `inquirer` only returns offered choices.) -/
theorem out_of_catalog_not_rejected (sys : Sys) (p fe be : String)
    (hf : fe ∉ handledFrontends) (hb : be ∉ handledBackends)
    (hwin : sys.isWindows = false) (hpy3 : sys.which "python3" = true)
    (hvenv : sys.cmdOk "python3 -m venv venv" (pjoin p "backend") = true) :
    setup_frontend sys p fe = ([], true) ∧
    setup_backend sys p be = ([], true) ∧
    "Flask" ∉ get_backend_choices "JavaScript" ∧
    (setup_backend sys p "Flask").2 = true ∧
    Event.run "python3 -m venv venv" (pjoin p "backend") ∈ (setup_backend sys p "Flask").1 := by
  refine ⟨?_, ?_, by decide, ?_, ?_⟩
  · simp only [handledFrontends, List.mem_cons, List.not_mem_nil, or_false, not_or] at hf
    obtain ⟨hf1, hf2, hf3, hf4⟩ := hf
    simp [setup_frontend, hf1, hf2, hf3, hf4]
  · simp only [handledBackends, List.mem_cons, List.not_mem_nil, or_false, not_or] at hb
    obtain ⟨hb1, hb2, hb3, hb4, hb5, hb6, hb7, hb8⟩ := hb
    simp [setup_backend, hb1, hb2, hb3, hb4, hb5, hb6, hb7, hb8]
  · rw [flask_trace sys p hwin hpy3 hvenv]
  · rw [flask_trace sys p hwin hpy3 hvenv]
    simp

/-- Witness for `out_of_catalog_not_rejected`. -/
theorem out_of_catalog_not_rejected_witness :
    "Nope" ∉ handledFrontends ∧ "Nada" ∉ handledBackends ∧
    sysAll.isWindows = false ∧ sysAll.which "python3" = true ∧
    sysAll.cmdOk "python3 -m venv venv" (pjoin "/q" "backend") = true ∧
    (setup_frontend sysAll "/q" "Nope" = ([], true) ∧
      setup_backend sysAll "/q" "Nada" = ([], true) ∧
      "Flask" ∉ get_backend_choices "JavaScript" ∧
      (setup_backend sysAll "/q" "Flask").2 = true ∧
      Event.run "python3 -m venv venv" (pjoin "/q" "backend")
        ∈ (setup_backend sysAll "/q" "Flask").1) :=
  ⟨by decide, by decide, rfl, rfl, rfl,
    out_of_catalog_not_rejected sysAll "/q" "Nope" "Nada" (by decide) (by decide) rfl rfl rfl⟩

/-- Claim C2: in the JavaScript/Fullstack/Vite+React/Express session the
executed action list contains, at strictly increasing positions, the Vite
scaffold, the frontend base install, the Tailwind install, the Tailwind
config step, the backend `npm init`, the backend install of
`express`/`cors`/`dotenv`, and the `server.js` write — in that order. -/
theorem fullstack_js_action_order :
    (mainRun envC2).2 = 0 ∧
    ((2 : Nat) < 3 ∧ (3 : Nat) < 4 ∧ (4 : Nat) < 5 ∧ (5 : Nat) < 10 ∧
      (10 : Nat) < 11 ∧ (11 : Nat) < 12) ∧
    ((mainRun envC2).1)[2]? =
      some (Event.run "npm create vite@latest frontend -- --template react" "/home/u/myapp") ∧
    ((mainRun envC2).1)[3]? =
      some (Event.run "npm install --no-audit --no-fund --prefer-offline" "/home/u/myapp/frontend") ∧
    ((mainRun envC2).1)[4]? =
      some (Event.run "npm install -D tailwindcss postcss autoprefixer --no-audit --no-fund" "/home/u/myapp/frontend") ∧
    ((mainRun envC2).1)[5]? =
      some (Event.run "npx tailwindcss init -p" "/home/u/myapp/frontend") ∧
    ((mainRun envC2).1)[10]? =
      some (Event.run "npm init -y" "/home/u/myapp/backend") ∧
    ((mainRun envC2).1)[11]? =
      some (Event.run "npm install express cors dotenv --no-audit --no-fund" "/home/u/myapp/backend") ∧
    ((mainRun envC2).1)[12]? =
      some (Event.write "/home/u/myapp/backend/server.js" serverJsContent) := by
  refine ⟨rfl, by decide, rfl, rfl, rfl, rfl, rfl, rfl, rfl⟩

/-- Claim C4, as stated, is false: in a Python/Flask session with no Python
interpreter resolvable, the run does exit with status 1, but only after the
existing target directory has been removed and recreated. -/
theorem toolchain_check_after_mutation_counterexample :
    resolvedBackend envC4 ≠ "None" ∧
    check_language_dependencies envC4.sys.which envC4.language (resolvedBackend envC4) = false ∧
    (mainRun envC4).2 = 1 ∧
    Event.rmtree (projectPathOf envC4) ∈ (mainRun envC4).1 ∧
    Event.mkdir (projectPathOf envC4) ∈ (mainRun envC4).1 := by
  refine ⟨by decide, rfl, rfl, by decide, by decide⟩

/-- Claim C4 (amended): when a non-None backend is chosen and its toolchain
check fails, the run halts with exit status 1 before any generation action
(no command is run and no file is written) — but after the target directory
has been removed (when it existed) and recreated, since `main` performs the
toolchain check only after the directory handling. -/
theorem toolchain_failure_halts_before_generation (env : Env)
    (hdeps : check_dependencies env.toolOk = none)
    (hname : projectNameOf env ≠ "")
    (hover : env.overwriteYes = true)
    (hfail : check_language_dependencies env.sys.which env.language (resolvedBackend env) = false) :
    (mainRun env).2 = 1 ∧
    (mainRun env).1 =
      (if env.dirExists then [Event.rmtree (projectPathOf env)] else [])
        ++ [Event.mkdir (projectPathOf env)] := by
  have hmad : mainAfterDir env (projectPathOf env) (projectNameOf env) = ([], 1) := by
    simp [mainAfterDir, hfail]
  constructor <;> simp [mainRun, hdeps, hname, hover, hmad]

/-- Witness for `toolchain_failure_halts_before_generation` at `envC4`. -/
theorem toolchain_failure_halts_before_generation_witness :
    check_dependencies envC4.toolOk = none ∧ projectNameOf envC4 ≠ "" ∧
    envC4.overwriteYes = true ∧
    check_language_dependencies envC4.sys.which envC4.language (resolvedBackend envC4) = false ∧
    ((mainRun envC4).2 = 1 ∧
      (mainRun envC4).1 =
        (if envC4.dirExists then [Event.rmtree (projectPathOf envC4)] else [])
          ++ [Event.mkdir (projectPathOf envC4)]) :=
  ⟨rfl, by decide, rfl, rfl,
    toolchain_failure_halts_before_generation envC4 rfl (by decide) rfl rfl⟩

/-- Claim C6: with the base tools present and a non-empty project name,
when the target directory exists the user is asked to confirm; declining
produces exit status 0 with no filesystem event at all (the directory is
untouched), and accepting removes and recreates the directory as the first
two events, before any generation action. -/
theorem overwrite_confirmation_flow (env : Env)
    (hdeps : check_dependencies env.toolOk = none)
    (hname : projectNameOf env ≠ "")
    (hdir : env.dirExists = true) :
    (env.overwriteYes = false → mainRun env = ([], 0)) ∧
    (env.overwriteYes = true →
      ∃ rest, mainRun env =
        (Event.rmtree (projectPathOf env) :: Event.mkdir (projectPathOf env) :: rest,
          (mainAfterDir env (projectPathOf env) (projectNameOf env)).2)) := by
  constructor
  · intro hno
    simp [mainRun, hdeps, hname, hdir, hno]
  · intro hyes
    refine ⟨(mainAfterDir env (projectPathOf env) (projectNameOf env)).1, ?_⟩
    simp [mainRun, hdeps, hname, hdir, hyes]

/-- Witness for `overwrite_confirmation_flow` at `envW6` (declining). -/
theorem overwrite_confirmation_flow_witness :
    check_dependencies envW6.toolOk = none ∧ projectNameOf envW6 ≠ "" ∧
    envW6.dirExists = true ∧
    (envW6.overwriteYes = false → mainRun envW6 = ([], 0)) :=
  ⟨rfl, by decide, rfl,
    (overwrite_confirmation_flow envW6 rfl (by decide) rfl).1⟩

/-- Claim C9: the generated `.gitignore`, `README.md` and start script are
pure functions of the plan (project name, language, frontend, backend,
target path) and the platform — identical inputs give byte-identical
events and contents. -/
theorem static_generation_deterministic
    (sys₁ sys₂ : Sys) (p₁ p₂ n₁ n₂ f₁ f₂ b₁ b₂ l₁ l₂ : String)
    (hw : sys₁.isWindows = sys₂.isWindows) (hp : p₁ = p₂) (hn : n₁ = n₂)
    (hf : f₁ = f₂) (hb : b₁ = b₂) (hl : l₁ = l₂) :
    create_gitignore p₁ f₁ b₁ l₁ = create_gitignore p₂ f₂ b₂ l₂ ∧
    create_readme p₁ n₁ f₁ b₁ l₁ = create_readme p₂ n₂ f₂ b₂ l₂ ∧
    create_start_script sys₁ p₁ f₁ b₁ = create_start_script sys₂ p₂ f₂ b₂ := by
  subst hp hn hf hb hl
  refine ⟨rfl, rfl, ?_⟩
  simp only [create_start_script, start_script_content, startScriptBase,
    backendStartCmd, hw]

/-- Witness for `static_generation_deterministic` at a concrete plan. -/
theorem static_generation_deterministic_witness :
    sysAll.isWindows = sysAll.isWindows ∧
    create_gitignore "/a" "None" "Flask" "Python" = create_gitignore "/a" "None" "Flask" "Python" ∧
    create_readme "/a" "app" "None" "Flask" "Python" = create_readme "/a" "app" "None" "Flask" "Python" ∧
    create_start_script sysAll "/a" "None" "Flask" = create_start_script sysAll "/a" "None" "Flask" :=
  ⟨rfl,
    (static_generation_deterministic sysAll sysAll "/a" "/a" "app" "app" "None" "None"
      "Flask" "Flask" "Python" "Python" rfl rfl rfl rfl rfl rfl).1,
    (static_generation_deterministic sysAll sysAll "/a" "/a" "app" "app" "None" "None"
      "Flask" "Flask" "Python" "Python" rfl rfl rfl rfl rfl rfl).2.1,
    (static_generation_deterministic sysAll sysAll "/a" "/a" "app" "app" "None" "None"
      "Flask" "Flask" "Python" "Python" rfl rfl rfl rfl rfl rfl).2.2⟩
